import Mathlib

/-!
Shallow embedding of the ETERNAL-LEDGER backend (src/index.js).

The gateway exposes four HTTP handlers over two external collaborators:
an identity-registry contract on a ledger and a content-addressed
evidence store.  Each handler is embedded as a pure function from the
request and the external environment to a result together with an
explicit trace of the effects it issues (ledger reads, ledger writes,
staging-file operations, store submissions).  External failure points
(client construction, file move, store submission, unlink) are modelled
by boolean/optional fields of environment records, so every exit path of
the source is a branch of the embedding.
-/

/-- Sentinel for an unbound NRIC: ethers.ZeroAddress, compared with
string equality exactly as the source does. -/
def ZeroAddress : String := "0x0000000000000000000000000000000000000000"

/-- The on-chain state readable and writable through the contract ABI
declared in src/index.js (nricToWallet, walletToNric,
authorizedRegistrars, isDeceased, getTokenByNric, records).  The
`records` getter returns a (metadataCID, timestamp) pair, split here
into two fields. -/
structure LedgerState where
  nricToWallet : String → String
  walletToNric : String → String
  authorizedRegistrars : String → Bool
  isDeceased : String → Bool
  getTokenByNric : String → Nat
  recordsCID : Nat → String
  recordsTimestamp : Nat → Nat

/-- Environment seen by a handler that constructs the contract:
whether construction succeeds (env vars present, provider reachable),
the signing wallet address returned by signerWallet.getAddress(), the
current ledger state, and whether an issued transaction confirms. -/
structure ChainEnv where
  chainOk : Bool
  registrarAddress : String
  ledger : LedgerState
  txOk : Bool

/-- A multipart upload as express-fileupload delivers it: a name and a
declared media type. -/
structure UploadedFile where
  name : String
  mimetype : String
  deriving DecidableEq

/-- Outcomes of the external steps inside uploadFileToIPFS: whether
file.mv succeeds, whether the Storacha client can be built, whether
filesFromPaths returns a non-empty list, the store submission result
(some cid on success), and whether fs.unlink succeeds. -/
structure UploadEnv where
  mvOk : Bool
  storachaOk : Bool
  filesNonEmpty : Bool
  storeResult : Option String
  unlinkOk : Bool

/-- The effects a handler can issue, in issue order. -/
inductive Event where
  | stagingWrite (name : String)
  | storachaBuild
  | storeSubmit
  | stagingUnlink
  | readNricToWallet (nric result : String)
  | readWalletToNric (wallet result : String)
  | readAuthorized (wallet : String) (result : Bool)
  | bindWrite (nric wallet : String)
  | recordDeathWrite (nric cid : String)
  deriving DecidableEq

/-- Events that mutate the ledger (transactions). -/
def Event.isLedgerWrite : Event → Bool
  | Event.bindWrite _ _ => true
  | Event.recordDeathWrite _ _ => true
  | _ => false

/-- Events belonging to the evidence-upload pipeline (staging write,
store-client construction, store submission, staging unlink). -/
def Event.isUploadEffect : Event → Bool
  | Event.stagingWrite _ => true
  | Event.storachaBuild => true
  | Event.storeSubmit => true
  | Event.stagingUnlink => true
  | _ => false

/-- The distinct failures uploadFileToIPFS can throw. -/
inductive UploadOutcome where
  | invalidFileType
  | mvFailed
  | storachaFailed
  | filesEmpty
  | storeFailed
  | unlinkFailed
  deriving DecidableEq

/-- The allow-list from src/index.js line 164. -/
def allowedTypes : List String :=
  ["application/pdf", "image/jpeg", "image/png", "application/json"]

/-- uploadFileToIPFS (src/index.js lines 163-180): validate the media
type, move the blob to a temp path, build the store client, load the
staged file, submit it, unlink the staged copy, return the CID.  Any
throwing step ends the function there; note the source runs fs.unlink
only after a successful submission. -/
def uploadFileToIPFS (env : UploadEnv) (file : UploadedFile) :
    Except UploadOutcome String × List Event :=
  if file.mimetype ∈ allowedTypes then
    if env.mvOk then
      if env.storachaOk then
        if env.filesNonEmpty then
          match env.storeResult with
          | some cid =>
            if env.unlinkOk then
              (Except.ok cid,
                [Event.stagingWrite file.name, Event.storachaBuild,
                 Event.storeSubmit, Event.stagingUnlink])
            else
              (Except.error UploadOutcome.unlinkFailed,
                [Event.stagingWrite file.name, Event.storachaBuild,
                 Event.storeSubmit])
          | none =>
            (Except.error UploadOutcome.storeFailed,
              [Event.stagingWrite file.name, Event.storachaBuild,
               Event.storeSubmit])
        else
          (Except.error UploadOutcome.filesEmpty,
            [Event.stagingWrite file.name, Event.storachaBuild])
      else
        (Except.error UploadOutcome.storachaFailed,
          [Event.stagingWrite file.name])
    else
      (Except.error UploadOutcome.mvFailed, [])
  else
    (Except.error UploadOutcome.invalidFileType, [])

/-- Result of POST /upload. -/
inductive UploadHttpResult where
  | noFile
  | uploaded (cid : String)
  | failed (e : UploadOutcome)
  deriving DecidableEq

/-- HTTP status of POST /upload: 400 only for the missing-file guard,
200 on success, 500 for every caught error. -/
def uploadStatus : UploadHttpResult → Nat
  | UploadHttpResult.noFile => 400
  | UploadHttpResult.uploaded _ => 200
  | UploadHttpResult.failed _ => 500

/-- POST /upload (src/index.js lines 183-193). -/
def uploadHandler (env : UploadEnv) (file : Option UploadedFile) :
    UploadHttpResult × List Event :=
  match file with
  | none => (UploadHttpResult.noFile, [])
  | some f =>
    match uploadFileToIPFS env f with
    | (Except.ok cid, tr) => (UploadHttpResult.uploaded cid, tr)
    | (Except.error e, tr) => (UploadHttpResult.failed e, tr)

/-- JavaScript truthiness of an optional string body field: absent and
empty string are both falsy. -/
def strTruthy : Option String → Bool
  | none => false
  | some s => !(s == "")

/-- Body of POST /bind-identity. -/
structure BindRequest where
  nric : Option String
  wallet : Option String

/-- Result of POST /bind-identity; error constructors carry the extra
payload fields the source attaches. -/
inductive BindResult where
  | missingFields
  | invalidWallet
  | zeroWallet
  | serverError
  | nricAlreadyBound (existingWallet : String)
  | walletAlreadyBound (existingNric : String)
  | notAuthorized
  | bound
  deriving DecidableEq

/-- HTTP status of POST /bind-identity responses. -/
def bindStatus : BindResult → Nat
  | BindResult.missingFields => 400
  | BindResult.invalidWallet => 400
  | BindResult.zeroWallet => 400
  | BindResult.serverError => 500
  | BindResult.nricAlreadyBound _ => 400
  | BindResult.walletAlreadyBound _ => 400
  | BindResult.notAuthorized => 403
  | BindResult.bound => 200

/-- POST /bind-identity (src/index.js lines 196-219).  `isAddress` is
the external ethers.isAddress syntactic check, passed in as a
parameter. -/
def bindIdentityHandler (cenv : ChainEnv) (isAddress : String → Bool)
    (req : BindRequest) : BindResult × List Event :=
  if !(strTruthy req.nric && strTruthy req.wallet) then
    (BindResult.missingFields, [])
  else
    let nric := req.nric.getD ""
    let wallet := req.wallet.getD ""
    if !(isAddress wallet) then (BindResult.invalidWallet, [])
    else if wallet = ZeroAddress then (BindResult.zeroWallet, [])
    else if !cenv.chainOk then (BindResult.serverError, [])
    else
      let existingWallet := cenv.ledger.nricToWallet nric
      let existingNric := cenv.ledger.walletToNric wallet
      let tr := [Event.readNricToWallet nric existingWallet,
                 Event.readWalletToNric wallet existingNric]
      if existingWallet ≠ ZeroAddress then
        (BindResult.nricAlreadyBound existingWallet, tr)
      else if existingNric ≠ "" then
        (BindResult.walletAlreadyBound existingNric, tr)
      else
        let isAuth := cenv.ledger.authorizedRegistrars cenv.registrarAddress
        let tr2 := tr ++ [Event.readAuthorized cenv.registrarAddress isAuth]
        if !isAuth then (BindResult.notAuthorized, tr2)
        else
          let tr3 := tr2 ++ [Event.bindWrite nric wallet]
          if cenv.txOk then (BindResult.bound, tr3)
          else (BindResult.serverError, tr3)

/-- Body of POST /record-death: nric and optional metadataCID in the
JSON body, plus an optional multipart file. -/
structure RecordDeathRequest where
  nric : Option String
  metadataCID : Option String
  file : Option UploadedFile

/-- Result of POST /record-death. -/
inductive RDResult where
  | missingNric
  | missingEvidence
  | uploadFailed (e : UploadOutcome)
  | serverError
  | notAuthorized
  | nricNotRegistered
  | recorded (metadataCID : String)
  deriving DecidableEq

/-- HTTP status of POST /record-death responses. -/
def rdStatus : RDResult → Nat
  | RDResult.missingNric => 400
  | RDResult.missingEvidence => 400
  | RDResult.uploadFailed _ => 500
  | RDResult.serverError => 500
  | RDResult.notAuthorized => 403
  | RDResult.nricNotRegistered => 404
  | RDResult.recorded _ => 200

/-- CID-resolution stage of POST /record-death (src/index.js lines
224-232): a truthy body metadataCID is used as is; otherwise a file is
required and uploaded. -/
def resolveCID (uenv : UploadEnv) (req : RecordDeathRequest) :
    Except RDResult String × List Event :=
  if strTruthy req.metadataCID then
    (Except.ok (req.metadataCID.getD ""), [])
  else
    match req.file with
    | none => (Except.error RDResult.missingEvidence, [])
    | some f =>
      match uploadFileToIPFS uenv f with
      | (Except.ok cid, tr) => (Except.ok cid, tr)
      | (Except.error e, tr) => (Except.error (RDResult.uploadFailed e), tr)

/-- Ledger stage of POST /record-death (src/index.js lines 234-244):
build the contract, read the registrar authorization, read the binding,
issue the write.  `tr` is the trace accumulated by CID resolution. -/
def afterCID (cenv : ChainEnv) (nric finalCID : String) (tr : List Event) :
    RDResult × List Event :=
  if !cenv.chainOk then (RDResult.serverError, tr)
  else
    let isAuth := cenv.ledger.authorizedRegistrars cenv.registrarAddress
    let tr2 := tr ++ [Event.readAuthorized cenv.registrarAddress isAuth]
    if !isAuth then (RDResult.notAuthorized, tr2)
    else
      let boundWallet := cenv.ledger.nricToWallet nric
      let tr3 := tr2 ++ [Event.readNricToWallet nric boundWallet]
      if boundWallet = ZeroAddress then (RDResult.nricNotRegistered, tr3)
      else
        let tr4 := tr3 ++ [Event.recordDeathWrite nric finalCID]
        if cenv.txOk then (RDResult.recorded finalCID, tr4)
        else (RDResult.serverError, tr4)

/-- POST /record-death (src/index.js lines 222-248).  The CID is
resolved first; only then is the contract built, the registrar
authorization read, the binding read, and the write issued. -/
def recordDeathHandler (cenv : ChainEnv) (uenv : UploadEnv)
    (req : RecordDeathRequest) : RDResult × List Event :=
  if !(strTruthy req.nric) then (RDResult.missingNric, [])
  else
    match resolveCID uenv req with
    | (Except.error r, tr) => (r, tr)
    | (Except.ok finalCID, tr) => afterCID cenv (req.nric.getD "") finalCID tr

/-- Response body of GET /search-by-nric: tokenId and timestamp are the
.toString() renderings, record is the (metadataCID, timestamp) pair. -/
structure SearchResponse where
  nric : String
  wallet : String
  isDeceased : Bool
  tokenId : Option String
  record : Option (String × String)
  tokenURI : Option String
  deriving DecidableEq

/-- Result of GET /search-by-nric. -/
inductive SearchResult where
  | serverError
  | notRegistered
  | found (resp : SearchResponse)
  deriving DecidableEq

/-- GET /search-by-nric/:nric (src/index.js lines 251-284).  The
tokenId field reproduces the source's `tokenId ? tokenId.toString() :
null`: a zero token identifier is falsy, hence rendered null. -/
def searchHandler (cenv : ChainEnv) (nric : String) : SearchResult :=
  if !cenv.chainOk then SearchResult.serverError
  else
    let wallet := cenv.ledger.nricToWallet nric
    if wallet = ZeroAddress then SearchResult.notRegistered
    else
      let dec := cenv.ledger.isDeceased nric
      if dec then
        let tokenId := cenv.ledger.getTokenByNric nric
        let cid := cenv.ledger.recordsCID tokenId
        let ts := cenv.ledger.recordsTimestamp tokenId
        SearchResult.found
          { nric := nric, wallet := wallet, isDeceased := true,
            tokenId := if tokenId ≠ 0 then some (toString tokenId) else none,
            record := some (cid, toString ts),
            tokenURI := some ("ipfs://" ++ cid) }
      else
        SearchResult.found
          { nric := nric, wallet := wallet, isDeceased := false,
            tokenId := none, record := none, tokenURI := none }

/-- tokenURI field of a search result, none unless found. -/
def SearchResult.tokenURIOf : SearchResult → Option String
  | SearchResult.found r => r.tokenURI
  | _ => none

/-! ### Concrete fixtures used by witnesses and counterexamples -/

/-- A ledger with one bound identity S1234567A ↦ 0xabc, every registrar
authorized, nobody deceased. -/
def ledgerBound : LedgerState :=
  { nricToWallet := fun n => if n = "S1234567A" then "0xabc" else ZeroAddress
    walletToNric := fun w => if w = "0xabc" then "S1234567A" else ""
    authorizedRegistrars := fun _ => true
    isDeceased := fun _ => false
    getTokenByNric := fun _ => 7
    recordsCID := fun _ => "bafyrec"
    recordsTimestamp := fun _ => 1700000000 }

/-- A chain environment over ledgerBound with everything working. -/
def cenvBound : ChainEnv :=
  { chainOk := true, registrarAddress := "0xreg", ledger := ledgerBound,
    txOk := true }

/-- A ledger that authorizes no registrar and binds nothing. -/
def ledgerNoAuth : LedgerState :=
  { nricToWallet := fun _ => ZeroAddress
    walletToNric := fun _ => ""
    authorizedRegistrars := fun _ => false
    isDeceased := fun _ => false
    getTokenByNric := fun _ => 0
    recordsCID := fun _ => ""
    recordsTimestamp := fun _ => 0 }

/-- A chain environment whose registrar is not authorized. -/
def cenvNoAuth : ChainEnv :=
  { chainOk := true, registrarAddress := "0xreg", ledger := ledgerNoAuth,
    txOk := true }

/-- A ledger whose identity S1 is bound, deceased, and whose token
identifier is 0. -/
def ledgerToken0 : LedgerState :=
  { nricToWallet := fun n => if n = "S1" then "0xabc" else ZeroAddress
    walletToNric := fun w => if w = "0xabc" then "S1" else ""
    authorizedRegistrars := fun _ => true
    isDeceased := fun n => n = "S1"
    getTokenByNric := fun _ => 0
    recordsCID := fun _ => "bafyrecord"
    recordsTimestamp := fun _ => 1700000000 }

/-- Chain environment over ledgerToken0. -/
def cenvToken0 : ChainEnv :=
  { chainOk := true, registrarAddress := "0xreg", ledger := ledgerToken0,
    txOk := true }

/-- An upload environment where every external step succeeds. -/
def uenvOk : UploadEnv :=
  { mvOk := true, storachaOk := true, filesNonEmpty := true,
    storeResult := some "bafyupload", unlinkOk := true }

/-- An upload environment where the store client cannot be built (for
example a missing IPFS_STORAGE_KEY) after the blob has been staged. -/
def uenvNoStoracha : UploadEnv :=
  { mvOk := true, storachaOk := false, filesNonEmpty := true,
    storeResult := none, unlinkOk := true }

/-- A PDF evidence file. -/
def pdfFile : UploadedFile := { name := "cert.pdf", mimetype := "application/pdf" }

/-- A text file, outside the media-type allow-list. -/
def txtFile : UploadedFile := { name := "a.txt", mimetype := "text/plain" }

/-- ethers.isAddress modelled for the fixtures: accepts the two
addresses the fixtures use. -/
def isAddressFix : String → Bool :=
  fun s => s = "0xabc" || s = "0xdef" || s = ZeroAddress

/-! ### Shared helper lemmas -/

/-- Every event issued by uploadFileToIPFS is an upload effect. -/
theorem uploadTrace_uploadEffect (env : UploadEnv) (f : UploadedFile) :
    ∀ e ∈ (uploadFileToIPFS env f).2, e.isUploadEffect = true := by
  unfold uploadFileToIPFS
  split <;> [skip; simp]
  split <;> [skip; simp]
  split <;> [skip; simp [Event.isUploadEffect]]
  split <;> [skip; simp [Event.isUploadEffect]]
  split
  · split <;> simp_all [Event.isUploadEffect]
  · simp [Event.isUploadEffect]

/-- Upload effects are never ledger writes. -/
theorem uploadEffect_not_write (e : Event) (h : e.isUploadEffect = true) :
    e.isLedgerWrite = false := by
  cases e <;> simp_all [Event.isUploadEffect, Event.isLedgerWrite]

/-- Helper: an invalid media type makes uploadFileToIPFS throw at its
first statement, with an empty effect trace. -/
theorem upload_rejects_invalid_type (env : UploadEnv) (f : UploadedFile)
    (h : f.mimetype ∉ allowedTypes) :
    uploadFileToIPFS env f = (Except.error UploadOutcome.invalidFileType, []) := by
  unfold uploadFileToIPFS
  simp [h]

/-! ### Claims -/

/-- Claim C9: a blob whose media type is outside {pdf, jpeg, png, json}
is rejected with the invalid-file-type error before any effect: no
staging write, no store-client construction, no store submission — the
trace is empty. -/
theorem c9_invalid_type_rejected_before_effects (env : UploadEnv)
    (f : UploadedFile) (h : f.mimetype ∉ allowedTypes) :
    uploadFileToIPFS env f = (Except.error UploadOutcome.invalidFileType, []) :=
  upload_rejects_invalid_type env f h

/-- Witness for C9 at a concrete text/plain file. -/
theorem c9_witness :
    uploadFileToIPFS uenvOk txtFile
      = (Except.error UploadOutcome.invalidFileType, []) :=
  c9_invalid_type_rejected_before_effects uenvOk txtFile (by decide)

/-- Claim C5 is violated by the code: with a valid PDF staged
successfully and the store client failing to build afterwards,
uploadFileToIPFS exits with the staging file written and never
unlinked — the source calls fs.unlink only on the success path. -/
theorem c5_staging_file_leaked_on_failure :
    (uploadFileToIPFS uenvNoStoracha pdfFile).2 = [Event.stagingWrite "cert.pdf"] ∧
    Event.stagingUnlink ∉ (uploadFileToIPFS uenvNoStoracha pdfFile).2 ∧
    (uploadFileToIPFS uenvNoStoracha pdfFile).1
      = Except.error UploadOutcome.storachaFailed :=
  ⟨by rfl, by decide, by rfl⟩

/-- Claim C6 is false on the code: a file with media type text/plain is
answered with HTTP 500, not 400 — the invalid-type error thrown inside
uploadFileToIPFS is caught by the generic handler that maps every error
to 500. -/
theorem c6_counterexample :
    uploadStatus (uploadHandler uenvOk (some txtFile)).1 = 500 ∧
    uploadStatus (uploadHandler uenvOk (some txtFile)).1 ≠ 400 := by
  decide

/-- Claim C6 amended: an invalid media type is answered with HTTP 500
carrying the invalid-file-type error; only the missing-file guard
answers 400. -/
theorem c6_amended_invalid_type_is_500 (env : UploadEnv) (f : UploadedFile)
    (h : f.mimetype ∉ allowedTypes) :
    (uploadHandler env (some f)).1 = UploadHttpResult.failed UploadOutcome.invalidFileType ∧
    uploadStatus (uploadHandler env (some f)).1 = 500 ∧
    uploadHandler env none = (UploadHttpResult.noFile, []) ∧
    uploadStatus (uploadHandler env none).1 = 400 := by
  have hu := upload_rejects_invalid_type env f h
  simp [uploadHandler, hu, uploadStatus]

/-- Witness for the amended C6 at a concrete text/plain file. -/
theorem c6_amended_witness :
    (uploadHandler uenvOk (some txtFile)).1
      = UploadHttpResult.failed UploadOutcome.invalidFileType ∧
    uploadStatus (uploadHandler uenvOk (some txtFile)).1 = 500 ∧
    uploadHandler uenvOk none = (UploadHttpResult.noFile, []) ∧
    uploadStatus (uploadHandler uenvOk none).1 = 400 :=
  c6_amended_invalid_type_is_500 uenvOk txtFile (by decide)

theorem resolveCID_effects (uenv : UploadEnv) (req : RecordDeathRequest) :
    ∀ e ∈ (resolveCID uenv req).2, e.isUploadEffect = true := by
  unfold resolveCID
  by_cases hm : strTruthy req.metadataCID
  · simp [hm]
  · cases hf : req.file with
    | none => simp [hm]
    | some f =>
      have h := uploadTrace_uploadEffect uenv f
      rcases hu : uploadFileToIPFS uenv f with ⟨r, tr⟩
      rw [hu] at h
      cases r <;> simp_all

theorem afterCID_unauthorized (cenv : ChainEnv) (nric cid : String)
    (tr : List Event)
    (h : cenv.ledger.authorizedRegistrars cenv.registrarAddress = false) :
    ((afterCID cenv nric cid tr).1 = RDResult.serverError ∧
      (afterCID cenv nric cid tr).2 = tr) ∨
    ((afterCID cenv nric cid tr).1 = RDResult.notAuthorized ∧
      (afterCID cenv nric cid tr).2
        = tr ++ [Event.readAuthorized cenv.registrarAddress false]) := by
  unfold afterCID
  by_cases hc : cenv.chainOk
  · right; simp [hc, h]
  · left; simp [hc]

theorem afterCID_authorized_unbound (cenv : ChainEnv) (nric cid : String)
    (tr : List Event) (hc : cenv.chainOk = true)
    (ha : cenv.ledger.authorizedRegistrars cenv.registrarAddress = true)
    (hz : cenv.ledger.nricToWallet nric = ZeroAddress) :
    afterCID cenv nric cid tr =
      (RDResult.nricNotRegistered,
        tr ++ [Event.readAuthorized cenv.registrarAddress true,
               Event.readNricToWallet nric ZeroAddress]) := by
  unfold afterCID
  simp [hc, ha, hz]

theorem bind_unauthorized (cenv : ChainEnv) (isAddress : String → Bool)
    (req : BindRequest)
    (h : cenv.ledger.authorizedRegistrars cenv.registrarAddress = false) :
    (∀ e ∈ (bindIdentityHandler cenv isAddress req).2, e.isLedgerWrite = false) ∧
    (Event.readAuthorized cenv.registrarAddress false
        ∈ (bindIdentityHandler cenv isAddress req).2 →
      (bindIdentityHandler cenv isAddress req).1 = BindResult.notAuthorized) := by
  unfold bindIdentityHandler
  simp only [h]
  split
  · simp
  · split
    · simp
    · split
      · simp
      · split
        · simp
        · split
          · simp [Event.isLedgerWrite]
          · split
            · simp [Event.isLedgerWrite]
            · simp [Event.isLedgerWrite]

theorem afterCID_trace_extends (cenv : ChainEnv) (nric cid : String)
    (tr : List Event) : ∀ e ∈ tr, e ∈ (afterCID cenv nric cid tr).2 := by
  intro e he
  unfold afterCID
  by_cases hc : cenv.chainOk <;>
    by_cases ha : cenv.ledger.authorizedRegistrars cenv.registrarAddress <;>
      by_cases hb : cenv.ledger.nricToWallet nric = ZeroAddress <;>
        by_cases ht : cenv.txOk <;>
          simp [hc, ha, hb, ht, he]

theorem afterCID_events (cenv : ChainEnv) (nric cid : String) (tr : List Event) :
    ∀ e ∈ (afterCID cenv nric cid tr).2, e ∈ tr ∨
      e = Event.readAuthorized cenv.registrarAddress
            (cenv.ledger.authorizedRegistrars cenv.registrarAddress) ∨
      e = Event.readNricToWallet nric (cenv.ledger.nricToWallet nric) ∨
      e = Event.recordDeathWrite nric cid := by
  intro e he
  unfold afterCID at he
  by_cases hc : cenv.chainOk <;>
    by_cases ha : cenv.ledger.authorizedRegistrars cenv.registrarAddress <;>
      by_cases hb : cenv.ledger.nricToWallet nric = ZeroAddress <;>
        by_cases ht : cenv.txOk <;>
          simp [hc, ha, hb, ht] at he ⊢ <;>
            tauto

theorem afterCID_write_mem (cenv : ChainEnv) (nric cid : String)
    (tr : List Event) (hc : cenv.chainOk = true)
    (ha : cenv.ledger.authorizedRegistrars cenv.registrarAddress = true)
    (hb : cenv.ledger.nricToWallet nric ≠ ZeroAddress) :
    Event.recordDeathWrite nric cid ∈ (afterCID cenv nric cid tr).2 := by
  unfold afterCID
  by_cases ht : cenv.txOk <;> simp [hc, ha, hb, ht]

theorem rd_unauthorized (cenv : ChainEnv) (uenv : UploadEnv)
    (req : RecordDeathRequest)
    (h : cenv.ledger.authorizedRegistrars cenv.registrarAddress = false) :
    (∀ e ∈ (recordDeathHandler cenv uenv req).2, e.isLedgerWrite = false) ∧
    (Event.readAuthorized cenv.registrarAddress false
        ∈ (recordDeathHandler cenv uenv req).2 →
      (recordDeathHandler cenv uenv req).1 = RDResult.notAuthorized) := by
  have hre := resolveCID_effects uenv req
  unfold recordDeathHandler
  split
  · simp
  · rcases hr : resolveCID uenv req with ⟨r, tr⟩
    rw [hr] at hre
    simp only at hre
    cases r with
    | error r0 =>
      constructor
      · intro e he; exact uploadEffect_not_write e (hre e he)
      · intro hmem
        have := hre _ hmem
        simp [Event.isUploadEffect] at this
    | ok cid =>
      rcases afterCID_unauthorized cenv (req.nric.getD "") cid tr h
        with ⟨h1, h2⟩ | ⟨h1, h2⟩
      · constructor
        · intro e he; rw [h2] at he; exact uploadEffect_not_write e (hre e he)
        · intro hmem
          rw [h2] at hmem
          have := hre _ hmem
          simp [Event.isUploadEffect] at this
      · constructor
        · intro e he
          rw [h2] at he
          rcases List.mem_append.1 he with h3 | h3
          · exact uploadEffect_not_write e (hre e h3)
          · simp at h3; subst h3; rfl
        · intro _; exact h1

/-- Claim C1: for bind and recordDeath alike, the ledger write is gated
on the authorization read made within the same operation.  When the
calling registrar wallet holds authorizedRegistrars = false, neither
handler issues any ledger write, and whenever the handler performed the
authorization read (observing false) it answers NotAuthorized. -/
theorem c1_writes_require_authorization (cenv : ChainEnv)
    (isAddress : String → Bool) (breq : BindRequest)
    (uenv : UploadEnv) (rreq : RecordDeathRequest)
    (h : cenv.ledger.authorizedRegistrars cenv.registrarAddress = false) :
    (∀ e ∈ (bindIdentityHandler cenv isAddress breq).2, e.isLedgerWrite = false) ∧
    (Event.readAuthorized cenv.registrarAddress false
        ∈ (bindIdentityHandler cenv isAddress breq).2 →
      (bindIdentityHandler cenv isAddress breq).1 = BindResult.notAuthorized) ∧
    (∀ e ∈ (recordDeathHandler cenv uenv rreq).2, e.isLedgerWrite = false) ∧
    (Event.readAuthorized cenv.registrarAddress false
        ∈ (recordDeathHandler cenv uenv rreq).2 →
      (recordDeathHandler cenv uenv rreq).1 = RDResult.notAuthorized) :=
  ⟨(bind_unauthorized cenv isAddress breq h).1,
   (bind_unauthorized cenv isAddress breq h).2,
   (rd_unauthorized cenv uenv rreq h).1,
   (rd_unauthorized cenv uenv rreq h).2⟩

/-- Witness for C1: on a concrete unauthorized environment, both a
well-formed bind request and a well-formed recordDeath request are
answered NotAuthorized. -/
theorem c1_witness :
    (bindIdentityHandler cenvNoAuth isAddressFix
        { nric := some "S1234567A", wallet := some "0xabc" }).1
      = BindResult.notAuthorized ∧
    (recordDeathHandler cenvNoAuth uenvOk
        { nric := some "S1234567A", metadataCID := some "bafycid", file := none }).1
      = RDResult.notAuthorized := by
  have h := c1_writes_require_authorization cenvNoAuth isAddressFix
    { nric := some "S1234567A", wallet := some "0xabc" } uenvOk
    { nric := some "S1234567A", metadataCID := some "bafycid", file := none }
    (by decide)
  exact ⟨h.2.1 (by decide), h.2.2.2 (by decide)⟩

/-- Claim C2: binding an nric whose getWalletForNric read is non-zero
answers AlreadyBound with the existing bound wallet in the payload,
HTTP 400, and issues no ledger write, so the original binding is
untouched. -/
theorem c2_rebind_conflict (cenv : ChainEnv) (isAddress : String → Bool)
    (n w : String) (hn : n ≠ "") (hw : w ≠ "")
    (haddr : isAddress w = true) (hz : w ≠ ZeroAddress)
    (hchain : cenv.chainOk = true)
    (hbound : cenv.ledger.nricToWallet n ≠ ZeroAddress) :
    (bindIdentityHandler cenv isAddress { nric := some n, wallet := some w }).1
        = BindResult.nricAlreadyBound (cenv.ledger.nricToWallet n) ∧
    bindStatus (bindIdentityHandler cenv isAddress
        { nric := some n, wallet := some w }).1 = 400 ∧
    ∀ e ∈ (bindIdentityHandler cenv isAddress
        { nric := some n, wallet := some w }).2, e.isLedgerWrite = false := by
  unfold bindIdentityHandler
  simp [strTruthy, hn, hw, haddr, hz, hchain, hbound, bindStatus,
    Event.isLedgerWrite]

/-- Witness for C2: rebinding S1234567A (bound to 0xabc) to 0xdef. -/
theorem c2_witness :
    (bindIdentityHandler cenvBound isAddressFix
        { nric := some "S1234567A", wallet := some "0xdef" }).1
      = BindResult.nricAlreadyBound "0xabc" ∧
    bindStatus (bindIdentityHandler cenvBound isAddressFix
        { nric := some "S1234567A", wallet := some "0xdef" }).1 = 400 ∧
    ∀ e ∈ (bindIdentityHandler cenvBound isAddressFix
        { nric := some "S1234567A", wallet := some "0xdef" }).2,
      e.isLedgerWrite = false := by
  have h := c2_rebind_conflict cenvBound isAddressFix "S1234567A" "0xdef"
    (by decide) (by decide) (by decide) (by decide) (by rfl) (by decide)
  exact ⟨h.1.trans (by decide), h.2.1, h.2.2⟩

/-- Claim C3: a recordDeath operation that reaches the getWalletForNric
read and observes the zero-address sentinel answers NricNotRegistered
with HTTP 404 and issues no ledger write. -/
theorem c3_unbound_nric_404 (cenv : ChainEnv) (uenv : UploadEnv)
    (req : RecordDeathRequest) (c : String)
    (hn : strTruthy req.nric = true)
    (hcid : (resolveCID uenv req).1 = Except.ok c)
    (hchain : cenv.chainOk = true)
    (hauth : cenv.ledger.authorizedRegistrars cenv.registrarAddress = true)
    (hz : cenv.ledger.nricToWallet (req.nric.getD "") = ZeroAddress) :
    (recordDeathHandler cenv uenv req).1 = RDResult.nricNotRegistered ∧
    rdStatus (recordDeathHandler cenv uenv req).1 = 404 ∧
    ∀ e ∈ (recordDeathHandler cenv uenv req).2, e.isLedgerWrite = false := by
  have hre := resolveCID_effects uenv req
  unfold recordDeathHandler
  simp only [hn, Bool.not_true, Bool.false_eq_true, if_false]
  rcases hr : resolveCID uenv req with ⟨r, tr⟩
  rw [hr] at hre hcid
  simp only at hre
  cases r with
  | error r0 => simp at hcid
  | ok c2 =>
    dsimp only
    rw [afterCID_authorized_unbound cenv (req.nric.getD "") c2 tr hchain hauth hz]
    refine ⟨rfl, rfl, ?_⟩
    intro e he
    rcases List.mem_append.1 he with h3 | h3
    · exact uploadEffect_not_write e (hre e h3)
    · simp at h3
      rcases h3 with h4 | h4 <;> subst h4 <;> rfl

/-- Witness for C3: recordDeath for the unbound S9999999Z with a
directly supplied CID. -/
theorem c3_witness :
    (recordDeathHandler cenvBound uenvOk
        { nric := some "S9999999Z", metadataCID := some "bafycid", file := none }).1
      = RDResult.nricNotRegistered ∧
    rdStatus (recordDeathHandler cenvBound uenvOk
        { nric := some "S9999999Z", metadataCID := some "bafycid", file := none }).1
      = 404 ∧
    ∀ e ∈ (recordDeathHandler cenvBound uenvOk
        { nric := some "S9999999Z", metadataCID := some "bafycid", file := none }).2,
      e.isLedgerWrite = false :=
  c3_unbound_nric_404 cenvBound uenvOk
    { nric := some "S9999999Z", metadataCID := some "bafycid", file := none }
    "bafycid" (by decide) (by rfl) (by rfl) (by decide) (by decide)

/-- Counterexample to C4: a recordDeath request by an unauthorized
caller that supplies a file and no metadataCID is answered
NotAuthorized, yet the evidence upload did run first — the trace
contains both the staging write and the store submission. -/
theorem c4_counterexample :
    (recordDeathHandler cenvNoAuth uenvOk
        { nric := some "S1234567A", metadataCID := none, file := some pdfFile }).1
      = RDResult.notAuthorized ∧
    Event.storeSubmit ∈ (recordDeathHandler cenvNoAuth uenvOk
        { nric := some "S1234567A", metadataCID := none, file := some pdfFile }).2 ∧
    Event.stagingWrite "cert.pdf" ∈ (recordDeathHandler cenvNoAuth uenvOk
        { nric := some "S1234567A", metadataCID := none, file := some pdfFile }).2 := by
  refine ⟨by rfl, by decide, by decide⟩

/-- Claim C4 amended: an unauthorized recordDeath request is answered
NotAuthorized (whenever the authorization read happened) and issues no
ledger write; however, when a file is supplied without a metadataCID
the evidence upload runs before the authorization check, so all its
effects appear in the operation trace. -/
theorem c4_amended_unauthorized (cenv : ChainEnv) (uenv : UploadEnv)
    (req : RecordDeathRequest)
    (h : cenv.ledger.authorizedRegistrars cenv.registrarAddress = false) :
    (Event.readAuthorized cenv.registrarAddress false
        ∈ (recordDeathHandler cenv uenv req).2 →
      (recordDeathHandler cenv uenv req).1 = RDResult.notAuthorized) ∧
    (∀ e ∈ (recordDeathHandler cenv uenv req).2, e.isLedgerWrite = false) ∧
    (∀ f, strTruthy req.nric = true → strTruthy req.metadataCID = false →
      req.file = some f →
      ∀ e ∈ (uploadFileToIPFS uenv f).2, e ∈ (recordDeathHandler cenv uenv req).2) := by
  refine ⟨(rd_unauthorized cenv uenv req h).2, (rd_unauthorized cenv uenv req h).1, ?_⟩
  intro f hn hm hf e he
  unfold recordDeathHandler
  simp only [hn, Bool.not_true, Bool.false_eq_true, if_false]
  have hres : resolveCID uenv req =
      match uploadFileToIPFS uenv f with
      | (Except.ok cid, tr) => (Except.ok cid, tr)
      | (Except.error e0, tr) => (Except.error (RDResult.uploadFailed e0), tr) := by
    unfold resolveCID
    simp [hm, hf]
  rw [hres]
  rcases hu : uploadFileToIPFS uenv f with ⟨r, tr0⟩
  rw [hu] at he
  simp only at he
  cases r with
  | error e0 => exact he
  | ok cid => exact afterCID_trace_extends cenv (req.nric.getD "") cid tr0 e he

/-- Witness for the amended C4: concrete unauthorized request with a
PDF file; answered NotAuthorized with the store submission in the
trace. -/
theorem c4_amended_witness :
    (recordDeathHandler cenvNoAuth uenvOk
        { nric := some "S2222222B", metadataCID := none, file := some pdfFile }).1
      = RDResult.notAuthorized ∧
    Event.storeSubmit ∈ (recordDeathHandler cenvNoAuth uenvOk
        { nric := some "S2222222B", metadataCID := none, file := some pdfFile }).2 := by
  have h := c4_amended_unauthorized cenvNoAuth uenvOk
    { nric := some "S2222222B", metadataCID := none, file := some pdfFile } (by decide)
  exact ⟨h.1 (by decide), h.2.2 pdfFile (by decide) (by decide) rfl
    Event.storeSubmit (by decide)⟩

/-- Claim C7: searching a registered, deceased identity returns a
tokenURI equal to "ipfs://" concatenated with the metadataCID of the
death record fetched for that identity token. -/
theorem c7_deceased_tokenURI (cenv : ChainEnv) (n : String)
    (hchain : cenv.chainOk = true)
    (hbound : cenv.ledger.nricToWallet n ≠ ZeroAddress)
    (hdec : cenv.ledger.isDeceased n = true) :
    (searchHandler cenv n).tokenURIOf
      = some ("ipfs://" ++ cenv.ledger.recordsCID (cenv.ledger.getTokenByNric n)) := by
  unfold searchHandler SearchResult.tokenURIOf
  simp [hchain, hbound, hdec]

/-- Witness for C7 on a concrete deceased identity. -/
theorem c7_witness :
    (searchHandler cenvToken0 "S1").tokenURIOf = some "ipfs://bafyrecord" := by
  have h := c7_deceased_tokenURI cenvToken0 "S1" (by rfl) (by decide) (by decide)
  exact h.trans (by decide)

/-- Counterexample to C8: on a registered identity that is deceased
with ledger token identifier 0, the response has isDeceased true but a
null tokenId — the source renders tokenId through a JavaScript
truthiness test, and 0 is falsy. -/
theorem c8_counterexample :
    searchHandler cenvToken0 "S1" = SearchResult.found
      { nric := "S1", wallet := "0xabc", isDeceased := true,
        tokenId := none, record := some ("bafyrecord", "1700000000"),
        tokenURI := some "ipfs://bafyrecord" } := by
  decide

/-- Claim C8 amended: for every registered identity the response
tokenId is non-null iff the identity is deceased AND the ledger token
identifier is non-zero; tokenId, record and tokenURI are all null when
not deceased, and isDeceased mirrors the ledger. -/
theorem c8_amended_tokenId (cenv : ChainEnv) (n : String)
    (hchain : cenv.chainOk = true)
    (hbound : cenv.ledger.nricToWallet n ≠ ZeroAddress) :
    ∃ resp, searchHandler cenv n = SearchResult.found resp ∧
      resp.isDeceased = cenv.ledger.isDeceased n ∧
      (resp.tokenId ≠ none ↔
        (cenv.ledger.isDeceased n = true ∧ cenv.ledger.getTokenByNric n ≠ 0)) ∧
      (cenv.ledger.isDeceased n = false →
        resp.tokenId = none ∧ resp.record = none ∧ resp.tokenURI = none) := by
  by_cases hdec : cenv.ledger.isDeceased n = true
  · refine Exists.intro
      { nric := n, wallet := cenv.ledger.nricToWallet n, isDeceased := true,
        tokenId := if cenv.ledger.getTokenByNric n ≠ 0
          then some (toString (cenv.ledger.getTokenByNric n)) else none,
        record := some (cenv.ledger.recordsCID (cenv.ledger.getTokenByNric n),
          toString (cenv.ledger.recordsTimestamp (cenv.ledger.getTokenByNric n))),
        tokenURI := some ("ipfs://" ++ cenv.ledger.recordsCID
          (cenv.ledger.getTokenByNric n)) }
      ⟨?_, ?_, ?_, ?_⟩
    · unfold searchHandler
      simp [hchain, hbound, hdec]
    · simp [hdec]
    · by_cases ht : cenv.ledger.getTokenByNric n = 0 <;> simp [ht, hdec]
    · intro hfalse; rw [hdec] at hfalse; cases hfalse
  · have hdec2 : cenv.ledger.isDeceased n = false := by
      simpa using hdec
    refine Exists.intro
      { nric := n, wallet := cenv.ledger.nricToWallet n, isDeceased := false,
        tokenId := none, record := none, tokenURI := none }
      ⟨?_, ?_, ?_, ?_⟩
    · unfold searchHandler
      simp [hchain, hbound, hdec2]
    · simp [hdec2]
    · simp [hdec2]
    · intro _; exact ⟨rfl, rfl, rfl⟩

/-- Witness for the amended C8 on the concrete token-0 ledger. -/
theorem c8_amended_witness :
    ∃ resp, searchHandler cenvToken0 "S1" = SearchResult.found resp ∧
      resp.isDeceased = cenvToken0.ledger.isDeceased "S1" ∧
      (resp.tokenId ≠ none ↔
        (cenvToken0.ledger.isDeceased "S1" = true ∧
          cenvToken0.ledger.getTokenByNric "S1" ≠ 0)) ∧
      (cenvToken0.ledger.isDeceased "S1" = false →
        resp.tokenId = none ∧ resp.record = none ∧ resp.tokenURI = none) :=
  c8_amended_tokenId cenvToken0 "S1" (by rfl) (by decide)

theorem rd_direct_cid_eq (cenv : ChainEnv) (uenv : UploadEnv) (n c : String)
    (file? : Option UploadedFile) (hn : n ≠ "") (hc : c ≠ "") :
    recordDeathHandler cenv uenv
        { nric := some n, metadataCID := some c, file := file? }
      = afterCID cenv n c [] := by
  unfold recordDeathHandler resolveCID
  simp [strTruthy, hn, hc]

/-- Claim C10: a recordDeath request with a truthy metadataCID skips
the upload pipeline entirely (no upload effect in the trace, hence no
media-type validation), and any recordDeath write issued carries the
supplied string verbatim; under authorization and a bound nric, that
write is issued.  An empty-string metadataCID is falsy, so with no file
the request is answered MissingEvidence. -/
theorem c10_direct_cid_verbatim (cenv : ChainEnv) (uenv : UploadEnv)
    (n c : String) (file? : Option UploadedFile) (hn : n ≠ "") (hc : c ≠ "") :
    (∀ e ∈ (recordDeathHandler cenv uenv
        { nric := some n, metadataCID := some c, file := file? }).2,
      e.isUploadEffect = false) ∧
    (∀ n2 c2, Event.recordDeathWrite n2 c2 ∈ (recordDeathHandler cenv uenv
        { nric := some n, metadataCID := some c, file := file? }).2 →
      n2 = n ∧ c2 = c) ∧
    (cenv.chainOk = true →
      cenv.ledger.authorizedRegistrars cenv.registrarAddress = true →
      cenv.ledger.nricToWallet n ≠ ZeroAddress →
      Event.recordDeathWrite n c ∈ (recordDeathHandler cenv uenv
        { nric := some n, metadataCID := some c, file := file? }).2) ∧
    (recordDeathHandler cenv uenv
        { nric := some n, metadataCID := some "", file := none }).1
      = RDResult.missingEvidence := by
  have heq := rd_direct_cid_eq cenv uenv n c file? hn hc
  refine ⟨?_, ?_, ?_, ?_⟩
  · intro e he
    rw [heq] at he
    rcases afterCID_events cenv n c [] e he with h0 | h0 | h0 | h0
    · simp at h0
    · subst h0; rfl
    · subst h0; rfl
    · subst h0; rfl
  · intro n2 c2 hmem
    rw [heq] at hmem
    rcases afterCID_events cenv n c [] _ hmem with h0 | h0 | h0 | h0
    · simp at h0
    · simp at h0
    · simp at h0
    · injection h0 with e1 e2
      exact ⟨e1, e2⟩
  · intro h1 h2 h3
    rw [heq]
    exact afterCID_write_mem cenv n c [] h1 h2 h3
  · unfold recordDeathHandler resolveCID
    simp [strTruthy, hn]

/-- Witness for C10: the supplied CID string reaches the ledger write
verbatim, and the empty-string CID with no file is MissingEvidence. -/
theorem c10_witness :
    Event.recordDeathWrite "S1234567A" "bafyverbatim" ∈ (recordDeathHandler
        cenvBound uenvOk
        { nric := some "S1234567A", metadataCID := some "bafyverbatim", file := none }).2 ∧
    (recordDeathHandler cenvBound uenvOk
        { nric := some "S1234567A", metadataCID := some "", file := none }).1
      = RDResult.missingEvidence := by
  have h := c10_direct_cid_verbatim cenvBound uenvOk "S1234567A" "bafyverbatim"
    none (by decide) (by decide)
  exact ⟨h.2.2.1 rfl (by decide) (by decide), h.2.2.2⟩
